import Mathlib

/-
Verification development for the ZYSE-SYSTEM ledger and lifecycle engine
(src/server.js and the sqlite helpers).  Monetary amounts are modelled as
exact rationals; calendar days are abstracted to natural numbers.  Each
definition below transcribes one handler or query of the source, with the
server.js line ranges noted in its doc comment.
-/

namespace ZYSE

/-- The `type` column of the `transactions` table: the five ledger entry
kinds appearing in server.js (`deposit`, `investment`, `accrual`, `bonus`,
`withdrawal`). -/
inductive TxType
  | deposit
  | investment
  | accrual
  | bonus
  | withdrawal
  deriving DecidableEq, Repr

/-- One row of the append-only `transactions` table (the ledger):
`user_id`, `type`, signed `amount`, optional `investment_id`
(schema in the db module: CREATE TABLE transactions). -/
structure Txn where
  userId : Nat
  type : TxType
  amount : ℚ
  investmentId : Option Nat
  deriving DecidableEq, Repr

/-- The `status` column of the `investments` table; the values written by
server.js: `pending`, `active`, `terminated`, `denied`,
`deposit_completed`, `withdrawn`. -/
inductive InvStatus
  | pending
  | active
  | terminated
  | denied
  | depositCompleted
  | withdrawn
  deriving DecidableEq, Repr

/-- One row of the `investments` table, restricted to the columns the
control flow of server.js reads or writes (`id`, `user_id`, `package_id`,
`deposit_amount`, `total_accruals`, `status`); the date and free-text
columns (`start_date`, `maturity_date`, `wallet`, `transaction_txt`) do
not influence any decision in the claims and are omitted. -/
structure Investment where
  id : Nat
  userId : Nat
  packageId : Nat
  depositAmount : ℚ
  totalAccruals : ℚ
  status : InvStatus
  deriving DecidableEq, Repr

/-- One row of the `packages` table (the tier catalog): `id`, `level`
(the label `L<n>` modelled by its number `n`), `amount`, `daily_rate`. -/
structure Package where
  id : Nat
  level : Nat
  amount : ℚ
  dailyRate : ℚ
  deriving DecidableEq, Repr

/-- The `status` column of the `withdrawal_requests` table:
`pending`, `paid`, `denied`. -/
inductive WrStatus
  | pending
  | paid
  | denied
  deriving DecidableEq, Repr

/-- One row of the `withdrawal_requests` table, restricted to the columns
the handlers read or write: `id`, `user_id`, `investment_id`,
`gross_amount`, `charge`, `net_amount`, `wallet`, `phone`, `status`. -/
structure WithdrawalRequest where
  id : Nat
  userId : Nat
  investmentId : Option Nat
  grossAmount : ℚ
  charge : ℚ
  netAmount : ℚ
  wallet : String
  phone : String
  status : WrStatus
  deriving DecidableEq, Repr

/-- One row of the `users` table, restricted to the columns the engine
reads: `level`, whether `withdrawal_password` is set, `withdrawal_wallet`,
`withdrawal_phone`, `phone`, `last_withdrawal_date` (a calendar day,
abstracted to a natural number). -/
structure User where
  id : Nat
  level : Option Nat
  withdrawalPasswordSet : Bool
  withdrawalWallet : Option String
  withdrawalPhone : Option String
  phone : Option String
  lastWithdrawalDate : Option Nat
  deriving DecidableEq, Repr

/-- The sqlite database state: the five tables the engine touches, plus
the AUTOINCREMENT counters supplying `lastID` for inserts into
`investments` and `withdrawal_requests`. -/
structure DB where
  users : List User
  packages : List Package
  investments : List Investment
  transactions : List Txn
  withdrawalRequests : List WithdrawalRequest
  nextInvestmentId : Nat
  nextRequestId : Nat
  deriving DecidableEq, Repr

/-- `SELECT type, amount, investment_id FROM transactions WHERE user_id = ?`
(server.js 679-682 and 1609-1612). -/
def userTxns (db : DB) (userId : Nat) : List Txn :=
  db.transactions.filter (fun t => t.userId == userId)

/-- The balance fold of the POST /api/invest-from-balance handler
(server.js 688-706): deposits with positive amount, plus all accrual and
bonus rows, minus withdrawals, minus absolute values of investment rows. -/
def availableBalanceInvest (transactions : List Txn) : ℚ :=
  let totalDeposits :=
    ((transactions.filter (fun t =>
        t.type == TxType.deposit && decide (0 < t.amount))).map (fun t => t.amount)).sum
  let totalWithdrawn :=
    ((transactions.filter (fun t => t.type == TxType.withdrawal)).map
      (fun t => t.amount)).sum
  let allAccrualsAndBonuses :=
    ((transactions.filter (fun t =>
        t.type == TxType.accrual || t.type == TxType.bonus)).map (fun t => t.amount)).sum
  let investmentsFromBalance :=
    ((transactions.filter (fun t => t.type == TxType.investment)).map
      (fun t => |t.amount|)).sum
  totalDeposits + allAccrualsAndBonuses - totalWithdrawn - investmentsFromBalance

/-- The balance fold of the POST /api/withdraw handler, standalone branch
(server.js 1618-1636); transcribed separately from the invest-from-balance
fold because the source duplicates the code. -/
def availableBalanceWithdraw (transactions : List Txn) : ℚ :=
  let totalDeposits :=
    ((transactions.filter (fun t =>
        t.type == TxType.deposit && decide (0 < t.amount))).map (fun t => t.amount)).sum
  let totalWithdrawn :=
    ((transactions.filter (fun t => t.type == TxType.withdrawal)).map
      (fun t => t.amount)).sum
  let allAccrualsAndBonuses :=
    ((transactions.filter (fun t =>
        t.type == TxType.accrual || t.type == TxType.bonus)).map (fun t => t.amount)).sum
  let investmentsFromBalance :=
    ((transactions.filter (fun t => t.type == TxType.investment)).map
      (fun t => |t.amount|)).sum
  totalDeposits + allAccrualsAndBonuses - totalWithdrawn - investmentsFromBalance

/-- The projected balance of one account, as both sufficiency checks
compute it: the fold applied to that account's transactions. -/
def projectBalance (db : DB) (userId : Nat) : ℚ :=
  availableBalanceInvest (userTxns db userId)

/-- The closed-form balance of spec section 3: sum of deposit amounts,
plus sum of accrual amounts, plus sum of bonus amounts, minus sum of
withdrawal amounts, minus sum of absolute values of investment-debit
amounts.  Written from the words of the spec, to be compared with the
folds transcribed from the code. -/
def closedFormBalance (ts : List Txn) : ℚ :=
  ((ts.filter (fun t => t.type == TxType.deposit)).map (fun t => t.amount)).sum
    + ((ts.filter (fun t => t.type == TxType.accrual)).map (fun t => t.amount)).sum
    + ((ts.filter (fun t => t.type == TxType.bonus)).map (fun t => t.amount)).sum
    - ((ts.filter (fun t => t.type == TxType.withdrawal)).map (fun t => t.amount)).sum
    - ((ts.filter (fun t => t.type == TxType.investment)).map (fun t => |t.amount|)).sum

/-- The error outcomes of the handlers (each a distinct non-2xx JSON
response in server.js). -/
inductive Err
  | invalidInput
  | packageNotFound
  | amountMismatch
  | sameLevel
  | insufficientBalance
  | userNotFound
  | paymentFailed
  | passwordNotSet
  | invalidPassword
  | walletNotSet
  | alreadyWithdrawnToday
  | belowMinimum
  | investmentNotFound
  | investmentAlreadyWithdrawn
  | phoneRequired
  | requestNotFound
  | alreadyProcessed
  | depositNotFound
  deriving DecidableEq, Repr

/-- The admin decision body field `action` of the approval endpoints. -/
inductive Decision
  | approve
  | deny
  deriving DecidableEq, Repr

/-- `SELECT * FROM packages WHERE id = ?`. -/
def findPackage (db : DB) (packageId : Nat) : Option Package :=
  db.packages.find? (fun p => p.id == packageId)

/-- `SELECT ... FROM users WHERE id = ?`. -/
def findUser (db : DB) (userId : Nat) : Option User :=
  db.users.find? (fun u => u.id == userId)

/-- `SELECT ... FROM investments WHERE user_id = ? AND status = 'active'`
via dbGet, which returns the first matching row (server.js 659-665). -/
def activeInvestment (db : DB) (userId : Nat) : Option Investment :=
  db.investments.find? (fun i => i.userId == userId && i.status == InvStatus.active)

/-- Number of investment rows of one account with status active. -/
def countActive (db : DB) (userId : Nat) : Nat :=
  (db.investments.filter (fun i =>
    i.userId == userId && i.status == InvStatus.active)).length

/-- The data the invest-from-balance handler carries from its read phase
into its writes: the caller, the package, the validated amount, the
package's level, and the id of the currently active investment if any. -/
structure InvestPlan where
  userId : Nat
  packageId : Nat
  amount : ℚ
  pkgLevel : Nat
  existingActiveId : Option Nat
  deriving DecidableEq, Repr

/-- The read-and-check phase of POST /api/invest-from-balance
(server.js 627-716): validate the amount, find the package, reject an
amount differing from the package amount by more than 0.01, reject a
switch to the level of the currently active investment, reject an
insufficient projected balance.  Every read goes against the database as
it is at call time; nothing is locked. -/
def investFromBalanceChecks (db : DB) (userId packageId : Nat) (amount : ℚ) :
    Except Err InvestPlan :=
  if amount < 1 then .error .invalidInput
  else
    match findPackage db packageId with
    | none => .error .packageNotFound
    | some pkg =>
      if (1 : ℚ) / 100 < |amount - pkg.amount| then .error .amountMismatch
      else
        let existing := activeInvestment db userId
        let existingLevel :=
          existing.bind (fun i => (findPackage db i.packageId).map (fun p => p.level))
        if existingLevel = some pkg.level then .error .sameLevel
        else
          let availableBalance := availableBalanceInvest (userTxns db userId)
          if availableBalance < amount then .error .insufficientBalance
          else .ok ⟨userId, packageId, amount, pkg.level, existing.map (fun i => i.id)⟩

/-- The write phase of POST /api/invest-from-balance (server.js 721-755),
as the list of separate sqlite statements the handler issues in order:
terminate the existing active investment if one was found, insert the new
investment with status active, insert the negative investment transaction
referring to the `lastID` of the insert just before it, update the user's
level.  The source runs them on fresh connections with no surrounding
transaction, so a prefix of this list is also a state the program can
leave behind. -/
def investFromBalanceWrites (plan : InvestPlan) : List (DB → DB) :=
  (match plan.existingActiveId with
   | some oldId =>
     [fun s => { s with investments := s.investments.map (fun i =>
        if i.id == oldId then { i with status := InvStatus.terminated } else i) }]
   | none => []) ++
  [fun s => { s with
      investments := s.investments ++
        [{ id := s.nextInvestmentId, userId := plan.userId, packageId := plan.packageId,
           depositAmount := plan.amount, totalAccruals := 0, status := InvStatus.active }],
      nextInvestmentId := s.nextInvestmentId + 1 },
   fun s => { s with transactions := s.transactions ++
      [{ userId := plan.userId, type := TxType.investment, amount := -plan.amount,
         investmentId := some (s.nextInvestmentId - 1) }] },
   fun s => { s with users := s.users.map (fun u =>
      if u.id == plan.userId then { u with level := some plan.pkgLevel } else u) }]

/-- Apply a list of sqlite statements in order. -/
def applyWrites (ws : List (DB → DB)) (db : DB) : DB :=
  ws.foldl (fun s f => f s) db

/-- POST /api/invest-from-balance run to completion: the checks followed
by all four writes. -/
def investFromBalance (db : DB) (userId packageId : Nat) (amount : ℚ) :
    Except Err DB :=
  (investFromBalanceChecks db userId packageId amount).map
    (fun plan => applyWrites (investFromBalanceWrites plan) db)

/-- POST /api/invest (server.js 540-624): payment-backed investment
creation.  The external payment verification outcome is passed in as
`paymentOk`.  After the package and amount checks, the handler inserts
the investment with status active (lines 593-597) without reading or
terminating any prior active investment, then inserts a positive deposit
transaction (lines 600-603). -/
def investPayment (db : DB) (userId packageId : Nat) (amount : ℚ)
    (paymentOk : Bool) : Except Err DB :=
  if !paymentOk then .error .paymentFailed
  else
    match findPackage db packageId with
    | none => .error .packageNotFound
    | some pkg =>
      if (1 : ℚ) / 100 < |amount - pkg.amount| then .error .amountMismatch
      else .ok { db with
        investments := db.investments ++
          [{ id := db.nextInvestmentId, userId := userId, packageId := packageId,
             depositAmount := amount, totalAccruals := 0, status := InvStatus.active }],
        transactions := db.transactions ++
          [{ userId := userId, type := TxType.deposit, amount := amount,
             investmentId := some db.nextInvestmentId }],
        nextInvestmentId := db.nextInvestmentId + 1 }

/-- PUT /api/admin/deposits/:id (server.js 1872-1940): decide a pending
deposit request (a row of `investments` with status pending).  A request
that is no longer pending is rejected before any write.  Approval inserts
one deposit transaction and sets the row to deposit_completed; denial
only sets the row to denied. -/
def decideDeposit (db : DB) (depositId : Nat) (action : Decision) : Except Err DB :=
  match db.investments.find? (fun i => i.id == depositId) with
  | none => .error .depositNotFound
  | some deposit =>
    if deposit.status ≠ InvStatus.pending then .error .alreadyProcessed
    else
      match action with
      | .approve => .ok { db with
          transactions := db.transactions ++
            [{ userId := deposit.userId, type := TxType.deposit,
               amount := deposit.depositAmount, investmentId := some depositId }],
          investments := db.investments.map (fun i =>
            if i.id == depositId then { i with status := InvStatus.depositCompleted } else i) }
      | .deny => .ok { db with investments := db.investments.map (fun i =>
          if i.id == depositId then { i with status := InvStatus.denied } else i) }

/-- POST /api/withdraw (server.js 1519-1694).  `passwordValid` is the
outcome of the bcrypt comparison of the submitted withdrawal password.
Check order as in the source: validator minimum of 50, user exists,
withdrawal password set and valid, withdrawal wallet set, not already
withdrawn today, in-handler minimum of 50, then either the chosen
investment's value (investment branch) or the projected balance
(standalone branch) must cover the amount; the 12 percent charge and the
net amount are computed, a phone number must exist, and the pending
request snapshotting wallet and phone is inserted.  No transaction row is
written. -/
def requestWithdrawal (db : DB) (userId : Nat) (amount : ℚ) (passwordValid : Bool)
    (today : Nat) (investmentId : Option Nat) :
    Except Err (DB × WithdrawalRequest) :=
  if amount < 50 then .error .invalidInput
  else
    match findUser db userId with
    | none => .error .userNotFound
    | some user =>
      if !user.withdrawalPasswordSet then .error .passwordNotSet
      else if !passwordValid then .error .invalidPassword
      else if user.withdrawalWallet = none then .error .walletNotSet
      else if user.lastWithdrawalDate = some today then .error .alreadyWithdrawnToday
      else if amount < 50 then .error .belowMinimum
      else
        let sufficiency : Except Err Unit :=
          match investmentId with
          | some invId =>
            match db.investments.find? (fun i => i.id == invId && i.userId == userId) with
            | none => .error .investmentNotFound
            | some investment =>
              if investment.status = InvStatus.withdrawn then
                .error .investmentAlreadyWithdrawn
              else
                let totalValue := investment.depositAmount + investment.totalAccruals
                if totalValue < amount then .error .insufficientBalance else .ok ()
          | none =>
            let availableBalance := availableBalanceWithdraw (userTxns db userId)
            if availableBalance < amount then .error .insufficientBalance else .ok ()
        match sufficiency with
        | .error e => .error e
        | .ok _ =>
          let withdrawalCharge := amount * (12 / 100)
          let netAmount := amount - withdrawalCharge
          let phoneForWithdrawal :=
            match user.phone with
            | some p => some p
            | none => user.withdrawalPhone
          match phoneForWithdrawal, user.withdrawalWallet with
          | none, _ => .error .phoneRequired
          | some _, none => .error .walletNotSet
          | some ph, some w =>
            let req : WithdrawalRequest :=
              { id := db.nextRequestId, userId := userId, investmentId := investmentId,
                grossAmount := amount, charge := withdrawalCharge, netAmount := netAmount,
                wallet := w, phone := ph, status := WrStatus.pending }
            .ok ({ db with
                withdrawalRequests := db.withdrawalRequests ++ [req],
                nextRequestId := db.nextRequestId + 1 }, req)

/-- PUT /api/admin/withdrawal-requests/:id (server.js 1966-2051): decide
a pending withdrawal request.  A request no longer pending is rejected
before any write.  The request row is set to paid or denied; on approval
the user's last_withdrawal_date is set to today and one withdrawal
transaction is inserted whose amount is the request's stored net_amount
(line 2019). -/
def decideWithdrawal (db : DB) (requestId : Nat) (action : Decision) (today : Nat) :
    Except Err DB :=
  match db.withdrawalRequests.find? (fun r => r.id == requestId) with
  | none => .error .requestNotFound
  | some request =>
    if request.status ≠ WrStatus.pending then .error .alreadyProcessed
    else
      let newStatus := match action with
        | .approve => WrStatus.paid
        | .deny => WrStatus.denied
      let db1 := { db with withdrawalRequests := db.withdrawalRequests.map (fun r =>
          if r.id == requestId then { r with status := newStatus } else r) }
      match action with
      | .approve => .ok { db1 with
          users := db1.users.map (fun u =>
            if u.id == request.userId then { u with lastWithdrawalDate := some today } else u),
          transactions := db1.transactions ++
            [{ userId := request.userId, type := TxType.withdrawal,
               amount := request.netAmount, investmentId := request.investmentId }] }
      | .deny => .ok db1

/-- The daily accrual cron job (server.js 2749-2784): over the snapshot of
active investments joined with their packages, add principal times daily
rate to the investment's total_accruals and insert one accrual
transaction.  The job keys on nothing but the status column: it carries
no period marker, so every invocation applies the credit again. -/
def runDailyAccrual (db : DB) : DB :=
  let actives := db.investments.filter (fun i => i.status == InvStatus.active)
  actives.foldl (fun s investment =>
    match findPackage db investment.packageId with
    | none => s
    | some pkg =>
      let dailyAccrual := investment.depositAmount * pkg.dailyRate
      { s with
        investments := s.investments.map (fun i =>
          if i.id == investment.id then
            { i with totalAccruals := i.totalAccruals + dailyAccrual }
          else i),
        transactions := s.transactions ++
          [{ userId := investment.userId, type := TxType.accrual,
             amount := dailyAccrual, investmentId := some investment.id }] }) db

/-- A concrete database exercising all five transaction kinds, used to
instantiate the balance closed-form theorem. -/
def dbC1 : DB :=
  { users := []
    packages := []
    investments := []
    transactions :=
      [⟨1, TxType.deposit, 100, none⟩, ⟨1, TxType.accrual, 5, some 1⟩,
       ⟨1, TxType.bonus, 2, none⟩, ⟨1, TxType.withdrawal, 30, none⟩,
       ⟨1, TxType.investment, -50, some 1⟩, ⟨2, TxType.deposit, 7, none⟩]
    withdrawalRequests := []
    nextInvestmentId := 1
    nextRequestId := 1 }

/-- Rounding to two decimal places, as the spec's `round2` in the
withdrawal fee law `fee = round2(gross*0.12)`.  Written from the words of
the spec, to be compared with the charge the code stores. -/
def round2 (x : ℚ) : ℚ := (round (x * 100) : ℚ) / 100

/-- A concrete account already holding one active investment (id 1 on
package 1), with a second package available. -/
def dbC2 : DB :=
  { users := [⟨1, some 1, true, some "airtel", none, some "0971", none⟩]
    packages := [⟨1, 1, 200, 3 / 100⟩, ⟨2, 2, 300, 3 / 100⟩]
    investments := [⟨1, 1, 1, 200, 0, InvStatus.active⟩]
    transactions := []
    withdrawalRequests := []
    nextInvestmentId := 2
    nextRequestId := 1 }

/-- The state after a successful payment-backed invest on dbC2: a second
active investment next to the untouched first one. -/
def dbC2after : DB :=
  { users := [⟨1, some 1, true, some "airtel", none, some "0971", none⟩]
    packages := [⟨1, 1, 200, 3 / 100⟩, ⟨2, 2, 300, 3 / 100⟩]
    investments := [⟨1, 1, 1, 200, 0, InvStatus.active⟩,
                    ⟨2, 1, 2, 300, 0, InvStatus.active⟩]
    transactions := [⟨1, TxType.deposit, 300, some 2⟩]
    withdrawalRequests := []
    nextInvestmentId := 3
    nextRequestId := 1 }

/-- A concrete account with balance 100 and one pending withdrawal
request of gross 100 with charge 12 and net 88. -/
def dbC3 : DB :=
  { users := [⟨1, none, true, some "airtel", none, some "0971", none⟩]
    packages := []
    investments := []
    transactions := [⟨1, TxType.deposit, 100, none⟩]
    withdrawalRequests := [⟨1, 1, none, 100, 12, 88, "airtel", "0971", WrStatus.pending⟩]
    nextInvestmentId := 1
    nextRequestId := 2 }

/-- The state after approving dbC3's request: the appended withdrawal
transaction carries the net amount 88, not the gross 100. -/
def dbC3approved : DB :=
  { users := [⟨1, none, true, some "airtel", none, some "0971", some 7⟩]
    packages := []
    investments := []
    transactions := [⟨1, TxType.deposit, 100, none⟩,
                     ⟨1, TxType.withdrawal, 88, none⟩]
    withdrawalRequests := [⟨1, 1, none, 100, 12, 88, "airtel", "0971", WrStatus.paid⟩]
    nextInvestmentId := 1
    nextRequestId := 2 }

/-- A concrete account with balance 1000 and a fully configured
withdrawal destination, used for withdrawal-request creation. -/
def dbC4 : DB :=
  { users := [⟨1, none, true, some "airtel", none, some "0971", none⟩]
    packages := []
    investments := []
    transactions := [⟨1, TxType.deposit, 1000, none⟩]
    withdrawalRequests := []
    nextInvestmentId := 1
    nextRequestId := 1 }

/-- The request created for gross 50.01: the stored charge is the exact
unrounded product 50.01 times 0.12 = 6.0012. -/
def reqC4frac : WithdrawalRequest :=
  ⟨1, 1, none, 5001 / 100, 15003 / 2500, 55011 / 1250, "airtel", "0971", WrStatus.pending⟩

/-- dbC4 after creating the gross-50.01 request. -/
def dbC4frac : DB :=
  { users := [⟨1, none, true, some "airtel", none, some "0971", none⟩]
    packages := []
    investments := []
    transactions := [⟨1, TxType.deposit, 1000, none⟩]
    withdrawalRequests := [reqC4frac]
    nextInvestmentId := 1
    nextRequestId := 2 }

/-- The request created for gross 100: charge 12, net 88. -/
def reqC4whole : WithdrawalRequest :=
  ⟨1, 1, none, 100, 12, 88, "airtel", "0971", WrStatus.pending⟩

/-- dbC4 after creating the gross-100 request. -/
def dbC4whole : DB :=
  { users := [⟨1, none, true, some "airtel", none, some "0971", none⟩]
    packages := []
    investments := []
    transactions := [⟨1, TxType.deposit, 1000, none⟩]
    withdrawalRequests := [reqC4whole]
    nextInvestmentId := 1
    nextRequestId := 2 }

/-- A concrete pending deposit request of amount 500 (a row of
`investments` with status pending, as /api/recharge creates them). -/
def dbC6 : DB :=
  { users := [⟨1, none, true, some "airtel", none, some "0971", none⟩]
    packages := [⟨1, 1, 500, 3 / 100⟩]
    investments := [⟨1, 1, 1, 500, 0, InvStatus.pending⟩]
    transactions := []
    withdrawalRequests := []
    nextInvestmentId := 2
    nextRequestId := 1 }

/-- A concrete account with one active investment of principal 200 on a
package with daily rate 0.03, and no transactions yet. -/
def dbC7 : DB :=
  { users := [⟨1, some 1, true, some "airtel", none, some "0971", none⟩]
    packages := [⟨1, 1, 200, 3 / 100⟩]
    investments := [⟨1, 1, 1, 200, 0, InvStatus.active⟩]
    transactions := []
    withdrawalRequests := []
    nextInvestmentId := 2
    nextRequestId := 1 }

/-- dbC7 after one run of the accrual job: one accrual of 6 posted. -/
def dbC7once : DB :=
  { users := [⟨1, some 1, true, some "airtel", none, some "0971", none⟩]
    packages := [⟨1, 1, 200, 3 / 100⟩]
    investments := [⟨1, 1, 1, 200, 6, InvStatus.active⟩]
    transactions := [⟨1, TxType.accrual, 6, some 1⟩]
    withdrawalRequests := []
    nextInvestmentId := 2
    nextRequestId := 1 }

/-- dbC7 after two runs of the accrual job: the credit applied twice. -/
def dbC7twice : DB :=
  { users := [⟨1, some 1, true, some "airtel", none, some "0971", none⟩]
    packages := [⟨1, 1, 200, 3 / 100⟩]
    investments := [⟨1, 1, 1, 200, 12, InvStatus.active⟩]
    transactions := [⟨1, TxType.accrual, 6, some 1⟩, ⟨1, TxType.accrual, 6, some 1⟩]
    withdrawalRequests := []
    nextInvestmentId := 2
    nextRequestId := 1 }

/-- A concrete account with balance 300 and no active investment, about
to open package 2 costing 200 from balance. -/
def dbC8 : DB :=
  { users := [⟨1, none, true, some "airtel", none, some "0971", none⟩]
    packages := [⟨2, 2, 200, 3 / 100⟩]
    investments := []
    transactions := [⟨1, TxType.deposit, 300, none⟩]
    withdrawalRequests := []
    nextInvestmentId := 1
    nextRequestId := 1 }

/-- The plan the checks of invest-from-balance produce on dbC8. -/
def planC8 : InvestPlan := ⟨1, 2, 200, 2, none⟩

/-- dbC8 after only the first write (the active-slot insert) has been
applied: the state left behind when the handler dies before the debit
insert. -/
def dbC8mid : DB :=
  { users := [⟨1, none, true, some "airtel", none, some "0971", none⟩]
    packages := [⟨2, 2, 200, 3 / 100⟩]
    investments := [⟨1, 1, 2, 200, 0, InvStatus.active⟩]
    transactions := [⟨1, TxType.deposit, 300, none⟩]
    withdrawalRequests := []
    nextInvestmentId := 2
    nextRequestId := 1 }

/-- A concrete account with balance 200 and two packages both costing
200, the setup for two concurrent opens. -/
def dbC9 : DB :=
  { users := [⟨1, none, true, some "airtel", none, some "0971", none⟩]
    packages := [⟨1, 1, 200, 3 / 100⟩, ⟨2, 2, 200, 3 / 100⟩]
    investments := []
    transactions := [⟨1, TxType.deposit, 200, none⟩]
    withdrawalRequests := []
    nextInvestmentId := 1
    nextRequestId := 1 }

/-- The plan the first concurrent call computes from dbC9. -/
def planC9first : InvestPlan := ⟨1, 1, 200, 1, none⟩

/-- The plan the second concurrent call computes from the same dbC9,
its reads interleaved before the first call's writes. -/
def planC9second : InvestPlan := ⟨1, 2, 200, 2, none⟩

/-- The state after both calls' write phases run: first call's writes,
then second call's writes. -/
def raceFinal : DB :=
  applyWrites (investFromBalanceWrites planC9second)
    (applyWrites (investFromBalanceWrites planC9first) dbC9)

/-- Splitting the combined accrual-or-bonus filter of the handlers into
the two per-kind sums of the closed form. -/
theorem sum_filter_accrual_bonus (ts : List Txn) :
    ((ts.filter (fun t =>
        t.type == TxType.accrual || t.type == TxType.bonus)).map (fun t => t.amount)).sum
      = ((ts.filter (fun t => t.type == TxType.accrual)).map (fun t => t.amount)).sum
        + ((ts.filter (fun t => t.type == TxType.bonus)).map (fun t => t.amount)).sum := by
  induction ts with
  | nil => simp
  | cons t ts ih =>
    rcases ht : t.type <;>
      simp [List.filter_cons, ht, ih] <;> ring

/-- When every deposit row has positive amount, the handlers' deposit
filter (which additionally tests the sign) keeps exactly the deposit
rows. -/
theorem deposits_filter_eq (ts : List Txn)
    (h : ∀ t ∈ ts, t.type = TxType.deposit → 0 < t.amount) :
    ts.filter (fun t => t.type == TxType.deposit && decide (0 < t.amount))
      = ts.filter (fun t => t.type == TxType.deposit) := by
  apply List.filter_congr
  intro t htm
  rcases ht : t.type <;> simp [ht]
  exact h t htm (by simp [ht])

/-- The handler fold agrees with the closed form of spec section 3 on any
transaction list whose deposit rows are positive. -/
theorem balance_closed_form_list (ts : List Txn)
    (h : ∀ t ∈ ts, t.type = TxType.deposit → 0 < t.amount) :
    availableBalanceInvest ts = closedFormBalance ts := by
  unfold availableBalanceInvest closedFormBalance
  rw [deposits_filter_eq ts h, sum_filter_accrual_bonus ts]
  ring

/-- C1: for every account whose deposit entries are positive (the only
kind the engine ever writes: every deposit insert validates its amount),
the projected balance used by the sufficiency checks equals the
closed-form sum over that account's ledger entries: deposits plus
accruals plus bonuses, minus withdrawals, minus absolute values of
investment debits. -/
theorem C1_projectBalance_closed_form (db : DB) (uid : Nat)
    (h : ∀ t ∈ userTxns db uid, t.type = TxType.deposit → 0 < t.amount) :
    projectBalance db uid = closedFormBalance (userTxns db uid) :=
  balance_closed_form_list (userTxns db uid) h

/-- Witness for C1 at a concrete account with all five entry kinds. -/
theorem C1_projectBalance_closed_form_witness :
    (∀ t ∈ userTxns dbC1 1, t.type = TxType.deposit → 0 < t.amount)
      ∧ projectBalance dbC1 1 = closedFormBalance (userTxns dbC1 1) :=
  ⟨by decide, C1_projectBalance_closed_form dbC1 1 (by decide)⟩

/-- C10: the two separately transcribed balance folds — the one in the
invest-from-balance handler and the one in the withdraw handler — compute
the same projected balance on every transaction list. -/
theorem C10_balance_folds_agree :
    ∀ ts, availableBalanceInvest ts = availableBalanceWithdraw ts :=
  fun _ => rfl

/-- Appending one withdrawal entry lowers the fold by that entry's
amount. -/
theorem availableBalanceInvest_append_withdrawal (ts : List Txn) (t : Txn)
    (h : t.type = TxType.withdrawal) :
    availableBalanceInvest (ts ++ [t]) = availableBalanceInvest ts - t.amount := by
  unfold availableBalanceInvest
  simp [List.filter_append, List.filter_cons, h]
  ring

/-- After updating the row with the looked-up id through an id-preserving
function, looking the id up again returns the updated row. -/
theorem find?_map_update {α : Type} (idOf : α → Nat) (l : List α) (targetId : Nat)
    (d : α) (g : α → α) (hg : ∀ i, idOf (g i) = idOf i)
    (hfind : l.find? (fun i => idOf i == targetId) = some d) :
    (l.map (fun i => if idOf i == targetId then g i else i)).find?
      (fun i => idOf i == targetId) = some (g d) := by
  induction l with
  | nil => simp at hfind
  | cons a l ih =>
    rcases hb : (idOf a == targetId) with _ | _
    · rw [List.find?_cons_of_neg _ (by simp [hb])] at hfind
      rw [List.map_cons, List.find?_cons_of_neg _ (by simp [hb])]
      exact ih hfind
    · rw [List.find?_cons_of_pos _ (by simp [hb])] at hfind
      rw [List.map_cons]
      have hif : (if idOf a == targetId then g a else a) = g a := by simp [hb]
      rw [hif, List.find?_cons_of_pos _ (by simp [hg, hb])]
      simp_all

/-- C2: the payment-backed investment path breaks the single-active-slot
invariant: on an account that already holds one active investment, a
successful POST /api/invest leaves two active investments, because the
handler inserts with status active without terminating the prior one. -/
theorem C2_payment_backed_invest_breaks_single_active :
    countActive dbC2 1 = 1
      ∧ investPayment dbC2 1 2 300 true = Except.ok dbC2after
      ∧ countActive dbC2after 1 = 2 := by
  refine ⟨by simp [countActive, dbC2, List.filter_cons], ?_,
    by simp [countActive, dbC2after, List.filter_cons]⟩
  simp [investPayment, findPackage, dbC2, dbC2after, List.find?]

/-- C3 counterexample: approving the pending request of dbC3 (gross 100,
fee 12, net 88) appends a withdrawal entry of amount 88 — the net, not
the gross — so the projected balance drops from 100 to 12 instead of
to 0. -/
theorem C3_counterexample_net_not_gross :
    dbC3.withdrawalRequests.map (fun r => (r.grossAmount, r.netAmount, r.status))
        = [(100, 88, WrStatus.pending)]
      ∧ projectBalance dbC3 1 = 100
      ∧ decideWithdrawal dbC3 1 Decision.approve 7 = Except.ok dbC3approved
      ∧ dbC3approved.transactions.drop 1
        = [{ userId := 1, type := TxType.withdrawal, amount := 88, investmentId := none }]
      ∧ projectBalance dbC3approved 1 = 12
      ∧ (88 : ℚ) ≠ 100 ∧ (12 : ℚ) ≠ 0 := by
  refine ⟨by simp [dbC3], ?_, ?_, by simp [dbC3approved], ?_, by norm_num, by norm_num⟩
  · simp [projectBalance, availableBalanceInvest, userTxns, dbC3, List.filter_cons]
  · simp [decideWithdrawal, dbC3, dbC3approved, List.find?]
  · simp [projectBalance, availableBalanceInvest, userTxns, dbC3approved,
      List.filter_cons] <;> norm_num

/-- C3 amended: approving a pending withdrawal request appends exactly
one withdrawal ledger entry whose amount is the request's stored net
amount (not the gross), so the projected balance decreases by the net
amount; approval also sets the account's last withdrawal date to today
and marks every request row with that id paid. -/
theorem C3_approval_debits_net_amount (db : DB) (requestId today : Nat)
    (r : WithdrawalRequest)
    (hfind : db.withdrawalRequests.find? (fun q => q.id == requestId) = some r)
    (hpending : r.status = WrStatus.pending) :
    ∃ db2, decideWithdrawal db requestId Decision.approve today = Except.ok db2
      ∧ db2.transactions = db.transactions ++
          [{ userId := r.userId, type := TxType.withdrawal, amount := r.netAmount,
             investmentId := r.investmentId }]
      ∧ projectBalance db2 r.userId = projectBalance db r.userId - r.netAmount
      ∧ (∀ u ∈ db2.users, u.id = r.userId → u.lastWithdrawalDate = some today)
      ∧ (∀ q ∈ db2.withdrawalRequests, q.id = requestId → q.status = WrStatus.paid) := by
  refine ⟨{ db with
      withdrawalRequests := db.withdrawalRequests.map (fun q =>
        if q.id == requestId then { q with status := WrStatus.paid } else q),
      users := db.users.map (fun u =>
        if u.id == r.userId then { u with lastWithdrawalDate := some today } else u),
      transactions := db.transactions ++
        [{ userId := r.userId, type := TxType.withdrawal, amount := r.netAmount,
           investmentId := r.investmentId }] }, ?_, rfl, ?_, ?_, ?_⟩
  · unfold decideWithdrawal
    rw [hfind]
    simp [hpending]
  · have htx : userTxns { db with
        withdrawalRequests := db.withdrawalRequests.map (fun q =>
          if q.id == requestId then { q with status := WrStatus.paid } else q),
        users := db.users.map (fun u =>
          if u.id == r.userId then { u with lastWithdrawalDate := some today } else u),
        transactions := db.transactions ++
          [{ userId := r.userId, type := TxType.withdrawal, amount := r.netAmount,
             investmentId := r.investmentId }] } r.userId
      = userTxns db r.userId ++
          [{ userId := r.userId, type := TxType.withdrawal, amount := r.netAmount,
             investmentId := r.investmentId }] := by
      unfold userTxns
      rw [List.filter_append]
      simp
    unfold projectBalance
    rw [htx, availableBalanceInvest_append_withdrawal _ _ rfl]
  · intro u hu hid
    simp only [List.mem_map] at hu
    obtain ⟨u0, hu0, hform⟩ := hu
    by_cases hcase : u0.id = r.userId
    · simp [hcase] at hform
      subst hform
      rfl
    · simp [hcase] at hform
      subst hform
      exact absurd hid hcase
  · intro q hq hid
    simp only [List.mem_map] at hq
    obtain ⟨q0, hq0, hform⟩ := hq
    by_cases hcase : q0.id = requestId
    · simp [hcase] at hform
      subst hform
      rfl
    · simp [hcase] at hform
      subst hform
      exact absurd hid hcase

/-- Witness for the amended C3 at the concrete state dbC3. -/
theorem C3_approval_debits_net_amount_witness :
    ∃ db2, decideWithdrawal dbC3 1 Decision.approve 7 = Except.ok db2
      ∧ db2.transactions = dbC3.transactions ++
          [{ userId := 1, type := TxType.withdrawal, amount := 88, investmentId := none }]
      ∧ projectBalance db2 1 = projectBalance dbC3 1 - 88
      ∧ (∀ u ∈ db2.users, u.id = 1 → u.lastWithdrawalDate = some 7)
      ∧ (∀ q ∈ db2.withdrawalRequests, q.id = 1 → q.status = WrStatus.paid) :=
  C3_approval_debits_net_amount dbC3 1 7
    ⟨1, 1, none, 100, 12, 88, "airtel", "0971", WrStatus.pending⟩ rfl rfl

/-- C4 counterexample: a successfully created request of gross 50.01
stores the charge 6.0012 = 50.01 times 0.12 unrounded, which differs from
round2(gross times 0.12) = 6; the code never rounds the fee to two
decimal places. -/
theorem C4_counterexample_fee_not_rounded :
    (50 : ℚ) ≤ 5001 / 100
      ∧ requestWithdrawal dbC4 1 (5001 / 100) true 7 none = Except.ok (dbC4frac, reqC4frac)
      ∧ reqC4frac.charge = 15003 / 2500
      ∧ round2 (reqC4frac.grossAmount * (12 / 100)) = 6
      ∧ reqC4frac.charge ≠ round2 (reqC4frac.grossAmount * (12 / 100)) := by
  refine ⟨by norm_num, ?_, by norm_num [reqC4frac], ?_, ?_⟩
  · simp [requestWithdrawal, findUser, availableBalanceWithdraw, userTxns, dbC4,
      dbC4frac, reqC4frac, List.find?, List.filter_cons] <;> norm_num
  · norm_num [round2, round_eq, reqC4frac]
  · norm_num [round2, round_eq, reqC4frac]

/-- C4 amended: every successfully created withdrawal request has gross
of at least 50 and stores the exact unrounded charge gross times 0.12,
with net = gross minus charge, so net plus charge equals gross exactly;
the fee fields are written once at creation (approval, per C3, reuses the
stored net amount and computes nothing). -/
theorem C4_fee_exact_unrounded (db db2 : DB) (userId : Nat) (amount : ℚ) (pv : Bool)
    (today : Nat) (invId : Option Nat) (req : WithdrawalRequest)
    (h : requestWithdrawal db userId amount pv today invId = Except.ok (db2, req)) :
    req.grossAmount = amount ∧ 50 ≤ amount
      ∧ req.charge = req.grossAmount * (12 / 100)
      ∧ req.netAmount = req.grossAmount - req.charge
      ∧ req.netAmount + req.charge = req.grossAmount := by
  unfold requestWithdrawal at h
  repeat' (first | split at h | dsimp only at h)
  all_goals simp at h
  all_goals obtain ⟨hdb, hreq⟩ := h
  all_goals subst hreq
  all_goals exact ⟨rfl, by linarith, rfl, rfl, by ring⟩

/-- Witness for the amended C4 at dbC4 with gross 100. -/
theorem C4_fee_exact_unrounded_witness :
    reqC4whole.grossAmount = 100 ∧ (50 : ℚ) ≤ 100
      ∧ reqC4whole.charge = reqC4whole.grossAmount * (12 / 100)
      ∧ reqC4whole.netAmount = reqC4whole.grossAmount - reqC4whole.charge
      ∧ reqC4whole.netAmount + reqC4whole.charge = reqC4whole.grossAmount :=
  C4_fee_exact_unrounded dbC4 dbC4whole 1 100 true 7 none reqC4whole
    (by simp [requestWithdrawal, findUser, availableBalanceWithdraw, userTxns, dbC4,
      dbC4whole, reqC4whole, List.find?, List.filter_cons] <;> norm_num)

/-- C5: a standalone withdrawal request that succeeds implies every guard
held — gross at least 50, the user's withdrawal wallet configured (and
snapshotted into the request), the last withdrawal date not today, gross
within the projected balance — and the created request is pending with
the gross stored, its phone snapshotted from the user, no transaction row
written, and the projected balance unchanged.  Contrapositively, the
request fails whenever one of those guards is violated. -/
theorem C5_requestWithdrawal_guards (db db2 : DB) (userId : Nat) (amount : ℚ)
    (pv : Bool) (today : Nat) (req : WithdrawalRequest)
    (h : requestWithdrawal db userId amount pv today none = Except.ok (db2, req)) :
    50 ≤ amount
      ∧ (findUser db userId).bind (fun u => u.withdrawalWallet) = some req.wallet
      ∧ (∀ u, findUser db userId = some u → u.lastWithdrawalDate ≠ some today)
      ∧ amount ≤ availableBalanceWithdraw (userTxns db userId)
      ∧ req.status = WrStatus.pending
      ∧ req.grossAmount = amount
      ∧ (∀ u, findUser db userId = some u →
          u.phone = some req.phone ∨ u.withdrawalPhone = some req.phone)
      ∧ db2.transactions = db.transactions
      ∧ projectBalance db2 userId = projectBalance db userId := by
  unfold requestWithdrawal at h
  repeat' (first | split at h | dsimp only at h)
  all_goals simp at h
  all_goals obtain ⟨hdb, hreq⟩ := h
  all_goals subst hreq
  all_goals subst hdb
  all_goals
    exact ⟨by linarith, by simp_all, by intro u hu; simp_all,
      le_of_not_lt (fun hbal => by simp_all), rfl, rfl, by intro u hu; simp_all, rfl, rfl⟩

/-- Witness for C5 at dbC4 with gross 100. -/
theorem C5_requestWithdrawal_guards_witness :
    (50 : ℚ) ≤ 100
      ∧ (findUser dbC4 1).bind (fun u => u.withdrawalWallet) = some reqC4whole.wallet
      ∧ (∀ u, findUser dbC4 1 = some u → u.lastWithdrawalDate ≠ some 7)
      ∧ (100 : ℚ) ≤ availableBalanceWithdraw (userTxns dbC4 1)
      ∧ reqC4whole.status = WrStatus.pending
      ∧ reqC4whole.grossAmount = 100
      ∧ (∀ u, findUser dbC4 1 = some u →
          u.phone = some reqC4whole.phone ∨ u.withdrawalPhone = some reqC4whole.phone)
      ∧ dbC4whole.transactions = dbC4.transactions
      ∧ projectBalance dbC4whole 1 = projectBalance dbC4 1 :=
  C5_requestWithdrawal_guards dbC4 dbC4whole 1 100 true 7 reqC4whole
    (by simp [requestWithdrawal, findUser, availableBalanceWithdraw, userTxns, dbC4,
      dbC4whole, reqC4whole, List.find?, List.filter_cons] <;> norm_num)

/-- C6: deciding a pending deposit request with approve posts exactly one
deposit ledger entry and moves the row to deposit_completed, deciding
with deny posts no entry, and in both cases any second decide call on the
same request fails with the already-processed conflict and returns no new
state, so two calls yield exactly one ledger effect. -/
theorem C6_decideDeposit_once (db : DB) (depositId : Nat) (d : Investment)
    (hfind : db.investments.find? (fun i => i.id == depositId) = some d)
    (hpending : d.status = InvStatus.pending) :
    (∃ db2, decideDeposit db depositId Decision.approve = Except.ok db2
      ∧ db2.transactions = db.transactions ++
          [{ userId := d.userId, type := TxType.deposit, amount := d.depositAmount,
             investmentId := some depositId }]
      ∧ (∀ i ∈ db2.investments, i.id = depositId → i.status = InvStatus.depositCompleted)
      ∧ ∀ action2, decideDeposit db2 depositId action2 = Except.error Err.alreadyProcessed)
    ∧ (∃ db3, decideDeposit db depositId Decision.deny = Except.ok db3
      ∧ db3.transactions = db.transactions
      ∧ ∀ action2, decideDeposit db3 depositId action2 = Except.error Err.alreadyProcessed) := by
  constructor
  · refine ⟨{ db with
        transactions := db.transactions ++
          [{ userId := d.userId, type := TxType.deposit, amount := d.depositAmount,
             investmentId := some depositId }],
        investments := db.investments.map (fun i =>
          if i.id == depositId then { i with status := InvStatus.depositCompleted } else i) },
      ?_, rfl, ?_, ?_⟩
    · unfold decideDeposit
      rw [hfind]
      simp [hpending]
    · intro i hi hid
      simp only [List.mem_map] at hi
      obtain ⟨i0, hi0, hform⟩ := hi
      by_cases hcase : i0.id = depositId
      · simp [hcase] at hform
        subst hform
        rfl
      · simp [hcase] at hform
        subst hform
        exact absurd hid hcase
    · intro action2
      unfold decideDeposit
      rw [show ({ db with
          transactions := db.transactions ++
            [{ userId := d.userId, type := TxType.deposit, amount := d.depositAmount,
               investmentId := some depositId }],
          investments := db.investments.map (fun i =>
            if i.id == depositId then { i with status := InvStatus.depositCompleted } else i) } : DB).investments
        = db.investments.map (fun i =>
            if i.id == depositId then { i with status := InvStatus.depositCompleted } else i) from rfl]
      rw [find?_map_update (fun i : Investment => i.id) db.investments depositId d
        (fun i => { i with status := InvStatus.depositCompleted }) (fun _ => rfl) hfind]
      simp
  · refine ⟨{ db with
        investments := db.investments.map (fun i =>
          if i.id == depositId then { i with status := InvStatus.denied } else i) },
      ?_, rfl, ?_⟩
    · unfold decideDeposit
      rw [hfind]
      simp [hpending]
    · intro action2
      unfold decideDeposit
      rw [show ({ db with
          investments := db.investments.map (fun i =>
            if i.id == depositId then { i with status := InvStatus.denied } else i) } : DB).investments
        = db.investments.map (fun i =>
            if i.id == depositId then { i with status := InvStatus.denied } else i) from rfl]
      rw [find?_map_update (fun i : Investment => i.id) db.investments depositId d
        (fun i => { i with status := InvStatus.denied }) (fun _ => rfl) hfind]
      simp

/-- Witness for C6 at the concrete pending deposit of dbC6. -/
theorem C6_decideDeposit_once_witness :
    (∃ db2, decideDeposit dbC6 1 Decision.approve = Except.ok db2
      ∧ db2.transactions = dbC6.transactions ++
          [{ userId := 1, type := TxType.deposit, amount := 500, investmentId := some 1 }]
      ∧ (∀ i ∈ db2.investments, i.id = 1 → i.status = InvStatus.depositCompleted)
      ∧ ∀ action2, decideDeposit db2 1 action2 = Except.error Err.alreadyProcessed)
    ∧ (∃ db3, decideDeposit dbC6 1 Decision.deny = Except.ok db3
      ∧ db3.transactions = dbC6.transactions
      ∧ ∀ action2, decideDeposit db3 1 action2 = Except.error Err.alreadyProcessed) :=
  C6_decideDeposit_once dbC6 1 ⟨1, 1, 1, 500, 0, InvStatus.pending⟩ rfl rfl

/-- C7: the accrual job is not idempotent per period — it carries no
period marker, so running it twice on the same state within one period
credits the active slot twice: two accrual entries of 6 = 200 times 0.03
are posted for slot 1 and its accumulated-accrual counter reaches 12. -/
theorem C7_accrual_not_idempotent :
    runDailyAccrual dbC7 = dbC7once
      ∧ runDailyAccrual dbC7once = dbC7twice
      ∧ (dbC7twice.transactions.filter
          (fun t => t.type == TxType.accrual && t.investmentId == some 1)).length = 2
      ∧ dbC7twice.investments.map (fun i => i.totalAccruals) = [12] := by
  refine ⟨?_, ?_, by simp [dbC7twice, List.filter_cons], by norm_num [dbC7twice]⟩
  · simp [runDailyAccrual, findPackage, dbC7, dbC7once, List.filter_cons,
      List.find?] <;> norm_num
  · simp [runDailyAccrual, findPackage, dbC7once, dbC7twice, List.filter_cons,
      List.find?] <;> norm_num

/-- C8: the invest-from-balance write sequence is not all-or-nothing: its
checks pass on dbC8, and applying only the first write (the active-slot
insert) — the state left if the handler dies before the debit insert —
yields an account with an active slot and no investment-debit ledger
entry at all, contradicting the active-slot-iff-debit-entry invariant. -/
theorem C8_partial_open_active_without_debit :
    investFromBalanceChecks dbC8 1 2 200 = Except.ok planC8
      ∧ applyWrites ((investFromBalanceWrites planC8).take 1) dbC8 = dbC8mid
      ∧ countActive dbC8mid 1 = 1
      ∧ (dbC8mid.transactions.filter (fun t => t.type == TxType.investment)).length = 0 := by
  refine ⟨?_, ?_, by simp [countActive, dbC8mid, List.filter_cons],
    by simp [dbC8mid, List.filter_cons]⟩
  · simp [investFromBalanceChecks, findPackage, activeInvestment, availableBalanceInvest,
      userTxns, dbC8, planC8, List.find?, List.filter_cons] <;> norm_num
  · simp [applyWrites, investFromBalanceWrites, planC8, dbC8, dbC8mid]

/-- C9: nothing serializes the read-balance-then-write sequence per
account: when two invest-from-balance calls for the same account both run
their checks against the same initial state dbC9 (balance 200, no active
slot) before either writes, both checks succeed, and after both write
phases run the account holds two active slots and a projected balance of
-200 — both calls succeeded, which the claim forbids. -/
theorem C9_concurrent_opens_both_succeed :
    investFromBalanceChecks dbC9 1 1 200 = Except.ok planC9first
      ∧ investFromBalanceChecks dbC9 1 2 200 = Except.ok planC9second
      ∧ countActive raceFinal 1 = 2
      ∧ projectBalance raceFinal 1 = -200 := by
  refine ⟨?_, ?_, ?_, ?_⟩
  · simp [investFromBalanceChecks, findPackage, activeInvestment, availableBalanceInvest,
      userTxns, dbC9, planC9first, List.find?, List.filter_cons]
  · simp [investFromBalanceChecks, findPackage, activeInvestment, availableBalanceInvest,
      userTxns, dbC9, planC9second, List.find?, List.filter_cons]
  · simp [countActive, raceFinal, applyWrites, investFromBalanceWrites, planC9first,
      planC9second, dbC9, List.filter_cons]
  · simp [projectBalance, availableBalanceInvest, userTxns, raceFinal, applyWrites,
      investFromBalanceWrites, planC9first, planC9second, dbC9, List.filter_cons]

end ZYSE
